import Mathlib

/- Verification development for the cafe order service.
   The definitions below are a shallow embedding of the JavaScript source:
   the order router (validation, submit, status update, soft cancel,
   automated status update, pending listing), the database module
   (item consolidation, total computation, order rows) and the MQTT
   service wrapper (publish, robot dispatch, emergency stop).
   JavaScript falsy-default expressions such as `a || b` are modelled by
   explicit helpers on Option values, with 0 and the empty string falsy. -/

/- Models `a || d` for string values: undefined and the empty string fall
   through to the default. -/
def jsStrOr : Option String → String → String
  | none, d => d
  | some s, d => if s = "" then d else s

/- Models `a || d` for integer values: undefined and 0 fall through. -/
def jsIntOr : Option Int → Int → Int
  | none, d => d
  | some x, d => if x = 0 then d else x

/- Models `a || d` for natural-number option values (qos levels). -/
def jsNatOr : Option Nat → Nat → Nat
  | none, d => d
  | some x, d => if x = 0 then d else x

/- A raw incoming item as the JSON body may carry it: every field may be
   absent.  Numeric coercion (parseInt / parseFloat) is modelled by typing
   quantity as Int and price as Rat. -/
structure RawItem where
  name : Option String := none
  title : Option String := none
  quantity : Option Int := none
  count : Option Int := none
  price : Option ℚ := none
deriving DecidableEq

/- A consolidated line item as produced by processOrderItems in db.js. -/
structure ProcessedItem where
  name : String
  quantity : Int
  price : ℚ
  totalItemPrice : ℚ
deriving DecidableEq

/- `item.name || item.title || 'نامشخص'` -/
def itemName (item : RawItem) : String :=
  jsStrOr item.name (jsStrOr item.title "نامشخص")

/- `parseInt(item.quantity || item.count || 1)` -/
def itemQty (item : RawItem) : Int :=
  jsIntOr item.quantity (jsIntOr item.count 1)

/- `parseFloat(item.price || 0)` -/
def itemPriceVal (item : RawItem) : ℚ :=
  item.price.getD 0

/- One step of the consolidation loop in processOrderItems: if the name is
   already in the map, add the quantity and recompute totalItemPrice from
   the FIRST occurrence price; otherwise append a fresh entry.  The JS Map
   preserves first-insertion order, modelled by an ordered list. -/
def insertItem (acc : List ProcessedItem) (item : RawItem) : List ProcessedItem :=
  if acc.any (fun p => p.name == itemName item) then
    acc.map (fun p =>
      if p.name == itemName item then
        { name := p.name, quantity := p.quantity + itemQty item, price := p.price,
          totalItemPrice := p.price * ((p.quantity + itemQty item : Int) : ℚ) }
      else p)
  else
    acc ++ [{ name := itemName item, quantity := itemQty item, price := itemPriceVal item,
              totalItemPrice := itemPriceVal item * ((itemQty item : Int) : ℚ) }]

/- db.js processOrderItems: group items by exact name, summing quantities. -/
def processOrderItems (items : List RawItem) : List ProcessedItem :=
  items.foldl insertItem []

/- A stored consolidated item fed back into processOrderItems (for example
   when the database row is re-read) carries exactly the fields name,
   quantity and price. -/
def toRaw (p : ProcessedItem) : RawItem :=
  { name := some p.name, title := none, quantity := some p.quantity,
    count := none, price := some p.price }

/- db.js calculateTotalPrice: sum of price * quantity over the
   consolidated items. -/
def calculateTotalPrice (items : List RawItem) : ℚ :=
  ((processOrderItems items).map (fun p => p.price * (p.quantity : ℚ))).sum

/- Structural invariant of consolidated items: nonempty name and the
   derived totalItemPrice field is price times quantity. -/
def stableItem (p : ProcessedItem) : Prop :=
  p.name ≠ "" ∧ p.totalItemPrice = p.price * (p.quantity : ℚ)

def namesOf (l : List ProcessedItem) : List String := l.map (fun p => p.name)

lemma jsStrOr_ne_empty (o : Option String) (d : String) (hd : d ≠ "") :
    jsStrOr o d ≠ "" := by
  cases o with
  | none => simpa [jsStrOr] using hd
  | some s =>
    by_cases hs : s = "" <;> simp [jsStrOr, hs, hd]

lemma itemName_ne_empty (item : RawItem) : itemName item ≠ "" :=
  jsStrOr_ne_empty _ _ (jsStrOr_ne_empty _ _ (by decide))

lemma stable_insertItem (acc : List ProcessedItem) (item : RawItem)
    (h : ∀ p ∈ acc, stableItem p) : ∀ p ∈ insertItem acc item, stableItem p := by
  intro p hp
  unfold insertItem at hp
  split at hp
  · obtain ⟨q, hq, rfl⟩ := List.mem_map.mp hp
    by_cases hname : (q.name == itemName item) = true
    · simp only [hname, if_true]
      exact ⟨(h q hq).1, rfl⟩
    · simp only [hname, if_false]
      exact h q hq
  · rcases List.mem_append.mp hp with hmem | hmem
    · exact h p hmem
    · rcases List.mem_singleton.mp hmem with rfl
      exact ⟨itemName_ne_empty item, rfl⟩

lemma namesOf_map_preserving (f : ProcessedItem → ProcessedItem)
    (hf : ∀ p, (f p).name = p.name) (l : List ProcessedItem) :
    namesOf (l.map f) = namesOf l := by
  induction l with
  | nil => rfl
  | cons q l ih =>
    simp only [namesOf, List.map_cons] at ih ⊢
    rw [hf q, ih]

lemma nodup_insertItem (acc : List ProcessedItem) (item : RawItem)
    (h : (namesOf acc).Nodup) : (namesOf (insertItem acc item)).Nodup := by
  unfold insertItem
  split
  · rw [namesOf_map_preserving]
    · exact h
    · intro p
      dsimp only
      split <;> rfl
  · rename_i hany
    have hnotin : itemName item ∉ namesOf acc := by
      intro hmem
      obtain ⟨q, hq, hqe⟩ := List.mem_map.mp hmem
      have hbeq : (q.name == itemName item) = true := by
        rw [hqe]; exact beq_self_eq_true _
      exact hany (List.any_eq_true.mpr ⟨q, hq, hbeq⟩)
    simp only [namesOf, List.map_append, List.map_cons, List.map_nil]
    rw [List.nodup_append]
    exact ⟨h, List.nodup_singleton _, by
      intro a ha hb
      simp only [List.mem_singleton] at hb
      exact hnotin (hb ▸ ha)⟩

lemma foldl_stable (items : List RawItem) :
    ∀ acc : List ProcessedItem, (∀ p ∈ acc, stableItem p) →
      ∀ p ∈ items.foldl insertItem acc, stableItem p := by
  induction items with
  | nil => intro acc h; simpa using h
  | cons i is ih => intro acc h; exact ih _ (stable_insertItem acc i h)

lemma foldl_nodup (items : List RawItem) :
    ∀ acc : List ProcessedItem, (namesOf acc).Nodup →
      (namesOf (items.foldl insertItem acc)).Nodup := by
  induction items with
  | nil => intro acc h; simpa using h
  | cons i is ih => intro acc h; exact ih _ (nodup_insertItem acc i h)

lemma processOrderItems_stable (items : List RawItem) :
    ∀ p ∈ processOrderItems items, stableItem p :=
  foldl_stable items [] (by simp)

lemma processOrderItems_nodup (items : List RawItem) :
    (namesOf (processOrderItems items)).Nodup :=
  foldl_nodup items [] (by simp [namesOf])

lemma foldl_insertItem_of_fresh (ys : List ProcessedItem) :
    ∀ acc : List ProcessedItem,
      (∀ p ∈ ys, stableItem p ∧ p.quantity ≠ 0) →
      (namesOf (acc ++ ys)).Nodup →
      (ys.map toRaw).foldl insertItem acc = acc ++ ys := by
  induction ys with
  | nil => intro acc _ _; simp
  | cons y ys ih =>
    intro acc hstable hnodup
    obtain ⟨⟨hne, htip⟩, hqz⟩ := hstable y (by simp)
    have hnm : itemName (toRaw y) = y.name := by
      simp [itemName, toRaw, jsStrOr, hne]
    have hq : itemQty (toRaw y) = y.quantity := by
      simp [itemQty, toRaw, jsIntOr, hqz]
    have hpr : itemPriceVal (toRaw y) = y.price := rfl
    have hnotin : y.name ∉ namesOf acc := by
      intro hmem
      have hsplit : namesOf (acc ++ y :: ys) = namesOf acc ++ y.name :: namesOf ys := by
        simp [namesOf]
      rw [hsplit, List.nodup_append] at hnodup
      exact hnodup.2.2 hmem (by simp)
    have hany : (acc.any fun p => p.name == itemName (toRaw y)) = false := by
      simp only [hnm]
      cases hcase : acc.any fun p => p.name == y.name
      · rfl
      · exfalso
        obtain ⟨q, hqmem, hqe⟩ := List.any_eq_true.mp hcase
        have hqn : q.name = y.name := by simpa using hqe
        exact hnotin (hqn ▸ List.mem_map_of_mem (fun p => p.name) hqmem)
    have h4 : itemPriceVal (toRaw y) * ((itemQty (toRaw y) : Int) : ℚ) =
        y.totalItemPrice := by
      rw [hq, hpr, htip]
    have hstep : insertItem acc (toRaw y) = acc ++ [y] := by
      unfold insertItem
      rw [hany, if_neg (by simp), h4, hnm, hq, hpr]
    rw [List.map_cons, List.foldl_cons, hstep]
    have happend : (acc ++ [y]) ++ ys = acc ++ y :: ys := by
      rw [List.append_assoc]; rfl
    have := ih (acc ++ [y]) (fun p hp => hstable p (by simp [hp]))
      (by rw [happend]; exact hnodup)
    rw [this, happend]

/-- C7 (amended): consolidation is deterministic, grouping items by exact name
with quantities summed and line totals recomputed, the first occurrence of a
name fixing its output position; applying it a second time returns the same
sequence for every input whose consolidated line quantities are all nonzero
(in particular whenever every supplied quantity is at least 1).  A consolidated
line whose quantities sum to exactly 0 is re-defaulted to quantity 1 by a
second pass, so full idempotence fails only there. -/
theorem processOrderItems_idempotent_on_nonzero (x : List RawItem)
    (h : ∀ p ∈ processOrderItems x, p.quantity ≠ 0) :
    processOrderItems ((processOrderItems x).map toRaw) = processOrderItems x := by
  have hfresh := foldl_insertItem_of_fresh (processOrderItems x) []
    (fun p hp => ⟨processOrderItems_stable x p hp, h p hp⟩)
    (by simpa [namesOf] using processOrderItems_nodup x)
  simpa [processOrderItems] using hfresh

/- Concrete input on which raw consolidation is not idempotent: the two Tea
   lines sum to quantity 0, and the falsy-default logic turns 0 back into 1
   on the second pass. -/
def zeroSumItems : List RawItem :=
  [{ name := some "Tea", quantity := some 1, price := some 2 },
   { name := some "Tea", quantity := some (-1), price := some 2 }]

/-- C7 counterexample: consolidate(consolidate(x)) differs from consolidate(x)
on the concrete input with Tea quantities 1 and -1, whose consolidated
quantity 0 is re-defaulted to 1 by the second pass. -/
theorem processOrderItems_not_idempotent_cex :
    processOrderItems ((processOrderItems zeroSumItems).map toRaw) ≠
      processOrderItems zeroSumItems := by
  decide

/-- Witness for the amended C7 theorem at the spec section 8 example input
(Tea quantity 1 and Tea quantity 2 at price 2). -/
theorem processOrderItems_idempotent_on_nonzero_witness :
    (∀ p ∈ processOrderItems
        [{ name := some "Tea", quantity := some 1, price := some 2 },
         { name := some "Tea", quantity := some 2, price := some 2 }],
      p.quantity ≠ 0) ∧
    processOrderItems ((processOrderItems
        [{ name := some "Tea", quantity := some 1, price := some 2 },
         { name := some "Tea", quantity := some 2, price := some 2 }]).map toRaw) =
      processOrderItems
        [{ name := some "Tea", quantity := some 1, price := some 2 },
         { name := some "Tea", quantity := some 2, price := some 2 }] :=
  ⟨by decide, processOrderItems_idempotent_on_nonzero _ (by decide)⟩

/- ========== Order store (db.js) ========== -/

/- A persisted order row as inserted by createOrder.  The JSON-encoded item
   string column is modelled by the consolidated item list itself. -/
structure OrderRow where
  id : Nat
  tableId : String
  tableLocation : Option String
  restaurantId : Option String
  items : List ProcessedItem
  totalPrice : ℚ
  status : String
  created_at : Nat
  updated_at : Nat
deriving DecidableEq

/- The database: the ordered orders table, the auto-increment counter and
   the NOW() clock. -/
structure Db where
  rows : List OrderRow
  nextId : Nat
  now : Nat
deriving DecidableEq

/- An order as returned by the read helpers: the stored item string is parsed
   and passed through processOrderItems again, and a totalItems count is
   added. -/
structure OrderRead where
  id : Nat
  tableId : String
  tableLocation : Option String
  restaurantId : Option String
  items : List ProcessedItem
  totalPrice : ℚ
  status : String
  created_at : Nat
  updated_at : Nat
  totalItems : Int
deriving DecidableEq

def readRow (r : OrderRow) : OrderRead :=
  { id := r.id, tableId := r.tableId, tableLocation := r.tableLocation,
    restaurantId := r.restaurantId,
    items := processOrderItems (r.items.map toRaw),
    totalPrice := r.totalPrice, status := r.status,
    created_at := r.created_at, updated_at := r.updated_at,
    totalItems := ((processOrderItems (r.items.map toRaw)).map (fun p => p.quantity)).sum }

/- db.js getOrderById: SELECT * FROM orders WHERE id = ? -/
def getOrderById (db : Db) (orderId : Nat) : Option OrderRead :=
  (db.rows.find? (fun r => r.id == orderId)).map readRow

/- db.js updateOrderStatus: UPDATE orders SET status = ?, updated_at = NOW()
   WHERE id = ?.  No legality check on the previous status. -/
def updateOrderStatus (db : Db) (orderId : Nat) (newStatus : String) : Db :=
  { db with rows := db.rows.map (fun r =>
      if r.id == orderId then { r with status := newStatus, updated_at := db.now }
      else r) }

/- The order data object assembled by the submit route.  Its totalPrice field
   is present but never destructured by createOrder. -/
structure OrderData where
  tableId : String
  tableLocation : Option String
  restaurantId : Option String
  items : List RawItem
  totalPrice : ℚ
deriving DecidableEq

/- db.js createOrder: consolidates the items, recomputes the total price from
   the consolidated items, and inserts a pending row.  The totalPrice carried
   in orderData is ignored. -/
def createOrder (db : Db) (orderData : OrderData) : Db × Nat :=
  let processedItems := processOrderItems orderData.items
  let calculatedTotalPrice := calculateTotalPrice orderData.items
  let row : OrderRow :=
    { id := db.nextId, tableId := orderData.tableId,
      tableLocation := orderData.tableLocation, restaurantId := orderData.restaurantId,
      items := processedItems, totalPrice := calculatedTotalPrice,
      status := "pending", created_at := db.now, updated_at := db.now }
  ({ rows := db.rows ++ [row], nextId := db.nextId + 1, now := db.now + 1 }, db.nextId)

/- db.js updateOrderItems: re-consolidates and recomputes totalPrice. -/
def updateOrderItems (db : Db) (orderId : Nat) (newItems : List RawItem) : Db :=
  let processedItems := processOrderItems newItems
  let calculatedTotalPrice := (processedItems.map (fun p => p.price * (p.quantity : ℚ))).sum
  { db with rows := db.rows.map (fun r =>
      if r.id == orderId then
        { r with items := processedItems, totalPrice := calculatedTotalPrice,
                 updated_at := db.now }
      else r) }

/- db.js getPendingOrders: SELECT * FROM orders WHERE status NOT IN
   ('completed', 'cancelled', 'delivered') ORDER BY created_at ASC. -/
def byCreatedAt (a b : OrderRow) : Prop := a.created_at ≤ b.created_at

instance : DecidableRel byCreatedAt := fun _ _ => Nat.decLe _ _

instance : IsTotal OrderRow byCreatedAt := ⟨fun _ _ => Nat.le_total _ _⟩

instance : IsTrans OrderRow byCreatedAt := ⟨fun _ _ _ => Nat.le_trans⟩

def getPendingOrders (db : Db) : List OrderRead :=
  ((db.rows.filter (fun r =>
      decide (¬ (r.status = "completed" ∨ r.status = "cancelled" ∨
                 r.status = "delivered")))).insertionSort byCreatedAt).map readRow

def byCreatedAtRead (a b : OrderRead) : Prop := a.created_at ≤ b.created_at

/- Row invariant: the stored total equals the sum of price times quantity
   over the stored consolidated items. -/
def rowConsistent (r : OrderRow) : Prop :=
  r.totalPrice = ((r.items.map (fun p => p.price * (p.quantity : ℚ))).sum)

/-- C3: after any write that touches items (creation via createOrder, or item
replacement via updateOrderItems) the persisted totalPrice of the touched row
equals the sum of price times quantity over its stored consolidated items,
and the caller-supplied total has no effect on what createOrder stores. -/
theorem totalPrice_recomputed_server_side :
    (∀ db orderData, ∀ r ∈ (createOrder db orderData).1.rows,
      r ∈ db.rows ∨
        (r.id = (createOrder db orderData).2 ∧
         r.items = processOrderItems orderData.items ∧ rowConsistent r)) ∧
    (∀ db orderId newItems, ∀ r ∈ (updateOrderItems db orderId newItems).rows,
      r ∈ db.rows ∨ (r.items = processOrderItems newItems ∧ rowConsistent r)) ∧
    (∀ db orderData t,
      createOrder db { orderData with totalPrice := t } = createOrder db orderData) := by
  refine ⟨?_, ?_, ?_⟩
  · intro db d r hr
    simp only [createOrder] at hr
    rcases List.mem_append.mp hr with h | h
    · exact Or.inl h
    · right
      rcases List.mem_singleton.mp h with rfl
      exact ⟨rfl, rfl, rfl⟩
  · intro db oid l r hr
    simp only [updateOrderItems] at hr
    obtain ⟨q, hq, rfl⟩ := List.mem_map.mp hr
    by_cases hid : (q.id == oid) = true
    · right
      rw [if_pos hid]
      exact ⟨rfl, rfl⟩
    · left
      rw [if_neg hid]
      exact hq
  · intro db d t
    rfl

def wDb0 : Db := { rows := [], nextId := 1, now := 0 }

def wOrderData : OrderData :=
  { tableId := "5", tableLocation := none, restaurantId := none,
    items := [{ name := some "Tea", quantity := some 1, price := some 2 }],
    totalPrice := 100 }

def wNewRow : OrderRow :=
  { id := 1, tableId := "5", tableLocation := none, restaurantId := none,
    items := processOrderItems wOrderData.items,
    totalPrice := calculateTotalPrice wOrderData.items,
    status := "pending", created_at := 0, updated_at := 0 }

/-- Witness for C3 at a concrete creation: the stored row carries the
consolidated items and the server-side recomputed total, not the
caller-supplied 100. -/
theorem totalPrice_recomputed_server_side_witness :
    wNewRow.id = (createOrder wDb0 wOrderData).2 ∧
    wNewRow.items = processOrderItems wOrderData.items ∧ rowConsistent wNewRow :=
  (totalPrice_recomputed_server_side.1 wDb0 wOrderData wNewRow
      (List.mem_append_right _ (List.mem_singleton_self wNewRow))).resolve_left
    (by simp [wDb0])

/-- C8: the pending listing never returns an order whose status is delivered,
cancelled or the legacy completed value, and the result is sorted ascending
(oldest first) by creation time. -/
theorem getPendingOrders_excludes_terminal_and_sorted (db : Db) :
    (∀ o ∈ getPendingOrders db,
      o.status ≠ "delivered" ∧ o.status ≠ "cancelled" ∧ o.status ≠ "completed") ∧
    List.Sorted byCreatedAtRead (getPendingOrders db) := by
  constructor
  · intro o ho
    obtain ⟨r, hr, rfl⟩ := List.mem_map.mp ho
    have hrf : r ∈ db.rows.filter (fun r =>
        decide (¬ (r.status = "completed" ∨ r.status = "cancelled" ∨
                   r.status = "delivered"))) :=
      (List.mem_insertionSort byCreatedAt).mp hr
    have hprop := of_decide_eq_true (List.mem_filter.mp hrf).2
    push_neg at hprop
    exact ⟨hprop.2.2, hprop.2.1, hprop.1⟩
  · have hs := List.sorted_insertionSort byCreatedAt
      (db.rows.filter (fun r =>
        decide (¬ (r.status = "completed" ∨ r.status = "cancelled" ∨
                   r.status = "delivered"))))
    exact List.pairwise_map.mpr hs

def wRowDelivered : OrderRow :=
  { id := 1, tableId := "1", tableLocation := none, restaurantId := none,
    items := [], totalPrice := 0, status := "delivered", created_at := 5, updated_at := 5 }

def wRowPending : OrderRow :=
  { id := 2, tableId := "2", tableLocation := none, restaurantId := none,
    items := [], totalPrice := 0, status := "pending", created_at := 9, updated_at := 9 }

def wRowPreparing : OrderRow :=
  { id := 3, tableId := "3", tableLocation := none, restaurantId := none,
    items := [], totalPrice := 0, status := "preparing", created_at := 3, updated_at := 3 }

def wPendingDb : Db :=
  { rows := [wRowDelivered, wRowPending, wRowPreparing], nextId := 4, now := 10 }

/-- Witness for C8 at a concrete database with a delivered, a pending and a
preparing row. -/
theorem getPendingOrders_excludes_terminal_and_sorted_witness :
    ((readRow wRowPreparing).status ≠ "delivered" ∧
     (readRow wRowPreparing).status ≠ "cancelled" ∧
     (readRow wRowPreparing).status ≠ "completed") ∧
    List.Sorted byCreatedAtRead (getPendingOrders wPendingDb) :=
  ⟨(getPendingOrders_excludes_terminal_and_sorted wPendingDb).1
      (readRow wRowPreparing) (by decide),
   (getPendingOrders_excludes_terminal_and_sorted wPendingDb).2⟩

/- ========== Transport wrapper (mqtt-service.js) ========== -/

def ROBOT_ORDERS_TOPIC : String := "/cafe/robot/orders/next"

def ORDERS_STATUS_UPDATE_TOPIC : String := "/cafe/orders/status"

def ORDERS_NEW_TOPIC : String := "/cafe/orders/new"

def EMERGENCY_TOPIC : String := "/cafe/emergency"

/- Structured message payloads built by the service methods; each carries the
   self-contained data the corresponding JS object carries. -/
inductive Payload where
  | robotOrder (orderId : Nat) (tableId : String) (totalPrice : ℚ)
  | statusUpdate (orderId : Nat) (oldStatus newStatus : String)
  | newOrder (orderId : Nat)
  | systemStatus (status : String)
  | emergency
deriving DecidableEq

structure PublishOptions where
  qos : Option Nat := none
  retain : Option Bool := none
  dup : Option Bool := none
deriving DecidableEq

structure PublishRecord where
  topic : String
  payload : Payload
  qos : Nat
  retain : Bool
deriving DecidableEq

/- MQTTService.publish: rejects immediately with an error when not connected —
   nothing is queued and no retry is scheduled, the model produces no record.
   When connected the message goes out with qos `options.qos || 1` and retain
   `options.retain || false`. -/
def MQTTService.publish (isConnected : Bool) (topic : String) (payload : Payload)
    (options : PublishOptions) : Except String PublishRecord :=
  if isConnected = false then .error "MQTT not connected"
  else .ok { topic := topic, payload := payload,
             qos := jsNatOr options.qos 1, retain := options.retain.getD false }

/- MQTTService.sendOrderToRobot: guard then publish to the agent-dispatch
   topic with default options. -/
def MQTTService.sendOrderToRobot (isConnected : Bool) (orderId : Nat)
    (tableId : String) (totalPrice : ℚ) : Except String PublishRecord :=
  if isConnected = false then .error "MQTT not connected"
  else MQTTService.publish isConnected ROBOT_ORDERS_TOPIC
    (.robotOrder orderId tableId totalPrice) {}

def MQTTService.publishOrderStatusUpdate (isConnected : Bool) (orderId : Nat)
    (oldStatus newStatus : String) : Except String PublishRecord :=
  if isConnected = false then .error "MQTT not connected"
  else MQTTService.publish isConnected ORDERS_STATUS_UPDATE_TOPIC
    (.statusUpdate orderId oldStatus newStatus) {}

def MQTTService.publishNewOrder (isConnected : Bool) (orderId : Nat) :
    Except String PublishRecord :=
  if isConnected = false then .error "MQTT not connected"
  else MQTTService.publish isConnected ORDERS_NEW_TOPIC (.newOrder orderId) {}

/- MQTTService.emergencyStop: publish to the emergency topic with qos 2. -/
def MQTTService.emergencyStop (isConnected : Bool) : Except String PublishRecord :=
  MQTTService.publish isConnected EMERGENCY_TOPIC .emergency { qos := some 2 }

/-- C9: publish fails immediately with a transport error whenever the wrapper
is not connected — no record is produced, nothing is queued or retried; when
connected the default quality level is qos 1 (at least once), and the
emergency-stop message is published at qos 2, the highest level.  The failure
propagates to emergencyStop as well when disconnected. -/
theorem publish_rejects_disconnected_default_qos1_emergency_qos2 :
    (∀ topic payload options,
      MQTTService.publish false topic payload options = .error "MQTT not connected") ∧
    (∀ topic payload,
      ∃ r, MQTTService.publish true topic payload {} = .ok r ∧ r.qos = 1) ∧
    (∃ r, MQTTService.emergencyStop true = .ok r ∧
      r.qos = 2 ∧ r.topic = EMERGENCY_TOPIC) ∧
    MQTTService.emergencyStop false = .error "MQTT not connected" :=
  ⟨fun _ _ _ => rfl, fun _ _ => ⟨_, rfl, rfl⟩, ⟨_, rfl, rfl, rfl⟩, rfl⟩

/- ========== Order router (order.js route handlers) ========== -/

/- External wiring of the router: whether the MQTT service is connected and
   whether the Socket.IO reference has been set. -/
structure Env where
  connected : Bool
  ioSet : Bool
deriving DecidableEq

/- Socket.IO events emitted by the route handlers. -/
inductive IoEvent where
  | newOrderCreated (orderId : Nat)
  | orderStatusUpdated (orderId : Nat) (oldStatus newStatus : String) (automated : Bool)
  | orderSentToRobot (success : Bool) (orderId : Nat)
  | mqttWarning (orderId : Nat)
deriving DecidableEq

/- Observable side effects of one handler call, in program order. -/
inductive Effect where
  | publish (r : PublishRecord)
  | ioEmit (ev : IoEvent)
deriving DecidableEq

/- A try/catch around an await of a publish: a successful publish is recorded,
   a failure is swallowed. -/
def effectsOfPublish : Except String PublishRecord → List Effect
  | .ok r => [.publish r]
  | .error _ => []

structure HttpResponse where
  statusCode : Nat
  success : Bool
  message : String
  oldStatus : Option String := none
  newStatus : Option String := none
  robotNotified : Option Bool := none
deriving DecidableEq

structure HandlerOut where
  resp : HttpResponse
  db : Db
  effects : List Effect
deriving DecidableEq

def badRequest (msg : String) : HttpResponse :=
  { statusCode := 400, success := false, message := msg }

def notFoundResp : HttpResponse :=
  { statusCode := 404, success := false, message := "Order not found" }

def allowedStatuses : List String :=
  ["pending", "preparing", "ready", "delivered", "cancelled"]

/- PUT /:orderId/status — the staff status update.  Mirrors the route body:
   reject falsy or unknown status, 404 for a missing order, otherwise commit
   the status unconditionally (the previous status is never examined), publish
   the status change when connected, and when the new status is ready either
   dispatch the order to the robot (connected) or emit a dashboard warning
   (disconnected).  robotNotified echoes status === ready AND connected. -/
def updateStatusHandler (env : Env) (db : Db) (orderId : Nat)
    (status : Option String) : HandlerOut :=
  let st := status.getD ""
  if st = "" then { resp := badRequest "Status is required", db := db, effects := [] }
  else if (allowedStatuses.contains st) = false then
    { resp := badRequest "Invalid status", db := db, effects := [] }
  else
    match getOrderById db orderId with
    | none => { resp := notFoundResp, db := db, effects := [] }
    | some existingOrder =>
      let oldStatus := existingOrder.status
      let db1 := updateOrderStatus db orderId st
      let updatedOrder := getOrderById db1 orderId
      let eff1 : List Effect :=
        if env.connected then
          effectsOfPublish
            (MQTTService.publishOrderStatusUpdate env.connected orderId oldStatus st)
        else []
      let eff2 : List Effect :=
        if st = "ready" then
          if env.connected then
            match MQTTService.sendOrderToRobot env.connected orderId
                ((updatedOrder.map (fun o => o.tableId)).getD "")
                ((updatedOrder.map (fun o => o.totalPrice)).getD 0) with
            | .ok r =>
              .publish r ::
                (if env.ioSet then [.ioEmit (.orderSentToRobot true orderId)] else [])
            | .error _ =>
              if env.ioSet then [.ioEmit (.orderSentToRobot false orderId)] else []
          else if env.ioSet then [.ioEmit (.mqttWarning orderId)] else []
        else []
      let eff3 : List Effect :=
        if env.ioSet then
          [.ioEmit (.orderStatusUpdated orderId oldStatus st false)]
        else []
      { resp := { statusCode := 200, success := true, message := "Order status updated",
                  oldStatus := some oldStatus, newStatus := some st,
                  robotNotified := some (if st = "ready" then env.connected else false) },
        db := db1, effects := eff1 ++ eff2 ++ eff3 }

/- DELETE /:orderId — soft cancel: 404 for a missing order, otherwise set the
   status to cancelled regardless of the previous status. -/
def deleteOrderHandler (env : Env) (db : Db) (orderId : Nat) : HandlerOut :=
  match getOrderById db orderId with
  | none => { resp := notFoundResp, db := db, effects := [] }
  | some existingOrder =>
    let db1 := updateOrderStatus db orderId "cancelled"
    let eff1 : List Effect :=
      if env.connected then
        effectsOfPublish (MQTTService.publishOrderStatusUpdate env.connected orderId
          existingOrder.status "cancelled")
      else []
    let eff2 : List Effect :=
      if env.ioSet then
        [.ioEmit (.orderStatusUpdated orderId existingOrder.status "cancelled" false)]
      else []
    { resp := { statusCode := 200, success := true,
                message := "Order cancelled successfully" },
      db := db1, effects := eff1 ++ eff2 }

def allowedAutoStatuses : List String := ["delivered"]

/- POST /auto-update-status — the automated (robot) status update: reject a
   falsy orderId or status, 404 for a missing order, reject any target not in
   allowedAutoStatuses (only delivered), otherwise commit. -/
def autoUpdateHandler (env : Env) (db : Db) (orderId : Option Nat)
    (status : Option String) : HandlerOut :=
  let oid := orderId.getD 0
  let st := status.getD ""
  if oid = 0 ∨ st = "" then
    { resp := badRequest "Order ID and status are required", db := db, effects := [] }
  else
    match getOrderById db oid with
    | none => { resp := notFoundResp, db := db, effects := [] }
    | some existingOrder =>
      if (allowedAutoStatuses.contains st) = false then
        { resp := badRequest "This status cannot be auto-updated", db := db,
          effects := [] }
      else
        let db1 := updateOrderStatus db oid st
        { resp := { statusCode := 200, success := true,
                    message := "Order status auto-updated",
                    oldStatus := some existingOrder.status, newStatus := some st },
          db := db1,
          effects :=
            if env.ioSet then
              [.ioEmit (.orderStatusUpdated oid existingOrder.status st true)]
            else [] }

/- The submit request body. -/
structure SubmitBody where
  tableId : Option String := none
  tableLocation : Option String := none
  restaurantId : Option String := none
  items : Option (List RawItem) := none
  totalPrice : Option ℚ := none
deriving DecidableEq

structure Validation where
  valid : Bool
  message : String
deriving DecidableEq

/- validateOrderData in order.js: tableId must be truthy, items must be a
   non-empty array, and the CALLER-SUPPLIED totalPrice must be truthy and
   greater than 0.  A missing-or-not-array items value is modelled as none. -/
def validateOrderData (tableId : Option String) (items : Option (List RawItem))
    (totalPrice : Option ℚ) : Validation :=
  if tableId.getD "" = "" then { valid := false, message := "Table ID is required" }
  else
    match items with
    | none => { valid := false, message := "Items array is required and cannot be empty" }
    | some l =>
      if l = [] then
        { valid := false, message := "Items array is required and cannot be empty" }
      else if totalPrice.getD 0 ≤ 0 then
        { valid := false, message := "Total price must be greater than 0" }
      else { valid := true, message := "" }

/- The per-item mapping the submit route applies before handing the items to
   the store: name/title defaulting, quantity/count defaulting, price
   parseFloat. -/
def routePreprocess (item : RawItem) : RawItem :=
  { name := some (jsStrOr item.name (jsStrOr item.title "نامشخص")),
    title := none,
    quantity := some (jsIntOr item.quantity (jsIntOr item.count 1)),
    count := none,
    price := some (item.price.getD 0) }

/- The orderData object echoed in the 201 response body: it carries the
   route-preprocessed (not store-consolidated) items and the caller-supplied
   totalPrice. -/
structure EchoData where
  id : Nat
  tableId : Option String
  tableLocation : Option String
  restaurantId : Option String
  items : List RawItem
  totalPrice : ℚ
  status : String
deriving DecidableEq

structure SubmitResponse where
  statusCode : Nat
  success : Bool
  message : String
  orderId : Option Nat := none
  orderData : Option EchoData := none
deriving DecidableEq

structure SubmitResult where
  resp : SubmitResponse
  db : Db
  effects : List Effect
deriving DecidableEq

/- POST /submit — validation, route preprocessing, store creation, MQTT and
   Socket.IO notification, and the 201 echo response. -/
def submitHandler (env : Env) (db : Db) (body : SubmitBody) : SubmitResult :=
  let validation := validateOrderData body.tableId body.items body.totalPrice
  if validation.valid = false then
    { resp := { statusCode := 400, success := false, message := validation.message },
      db := db, effects := [] }
  else
    let processedItems := (body.items.getD []).map routePreprocess
    let orderData : OrderData :=
      { tableId := body.tableId.getD "", tableLocation := body.tableLocation,
        restaurantId := body.restaurantId, items := processedItems,
        totalPrice := body.totalPrice.getD 0 }
    let res := createOrder db orderData
    let eff1 : List Effect :=
      if env.connected then
        effectsOfPublish (MQTTService.publishNewOrder env.connected res.2)
      else []
    let eff2 : List Effect :=
      if env.ioSet then [.ioEmit (.newOrderCreated res.2)] else []
    { resp := { statusCode := 201, success := true, message := "Order submitted",
                orderId := some res.2,
                orderData := some { id := res.2, tableId := body.tableId,
                                    tableLocation := body.tableLocation,
                                    restaurantId := body.restaurantId,
                                    items := processedItems,
                                    totalPrice := body.totalPrice.getD 0,
                                    status := "pending" } },
      db := res.1, effects := eff1 ++ eff2 }

def orderStatus (db : Db) (orderId : Nat) : Option String :=
  (getOrderById db orderId).map (fun o => o.status)

/- Agent-dispatch accounting over an effect trace. -/
def isRobotDispatch : Effect → Bool
  | .publish r => r.topic == ROBOT_ORDERS_TOPIC
  | _ => false

def isMqttWarning : Effect → Bool
  | .ioEmit (.mqttWarning _) => true
  | _ => false

def robotDispatchCount (effects : List Effect) : Nat :=
  (effects.filter isRobotDispatch).length

def readySignalCount (effects : List Effect) : Nat :=
  (effects.filter (fun e => isRobotDispatch e || isMqttWarning e)).length

lemma find?_update (rows : List OrderRow) (oid : Nat) (upd : OrderRow → OrderRow)
    (hid : ∀ r, (upd r).id = r.id) :
    (rows.map (fun r => if r.id == oid then upd r else r)).find? (fun r => r.id == oid)
      = (rows.find? (fun r => r.id == oid)).map upd := by
  induction rows with
  | nil => rfl
  | cons r rs ih =>
    rw [List.map_cons]
    by_cases hr : (r.id == oid) = true
    · rw [if_pos hr]
      rw [@List.find?_cons_of_pos _ (fun q => q.id == oid) (upd r)
            (rs.map (fun q => if q.id == oid then upd q else q))
            (by show ((upd r).id == oid) = true; rw [hid r]; exact hr)]
      rw [@List.find?_cons_of_pos _ (fun q => q.id == oid) r rs hr]
      rfl
    · rw [if_neg hr]
      rw [@List.find?_cons_of_neg _ (fun q => q.id == oid) r
            (rs.map (fun q => if q.id == oid then upd q else q)) hr]
      rw [@List.find?_cons_of_neg _ (fun q => q.id == oid) r rs hr]
      exact ih

lemma getOrderById_updateOrderStatus (db : Db) (oid : Nat) (st : String) :
    getOrderById (updateOrderStatus db oid st) oid =
      (getOrderById db oid).map
        (fun o => { o with status := st, updated_at := db.now }) := by
  unfold getOrderById updateOrderStatus
  rw [find?_update db.rows oid
        (fun r => { r with status := st, updated_at := db.now }) (fun _ => rfl)]
  cases db.rows.find? (fun r => r.id == oid) with
  | none => rfl
  | some r => rfl

/-- C1: a staff status update that sets an existing order to ready triggers
the agent-dispatch handling exactly once per call, whatever the previous
status of the order was (the previous status is fully quantified over, so a
repeat transition into ready re-triggers a fresh dispatch with no
deduplication): the ready branch fires exactly once independent of transport
availability, producing exactly one publish to the agent-dispatch topic when
the transport is connected and the recorded failure signal (zero wire
publishes, the dashboard warning) when it is not, never more than one. -/
theorem ready_transition_dispatches_exactly_once (env : Env) (db : Db) (orderId : Nat)
    (h : (getOrderById db orderId).isSome = true) (hio : env.ioSet = true) :
    robotDispatchCount (updateStatusHandler env db orderId (some "ready")).effects
        = (if env.connected then 1 else 0) ∧
    readySignalCount (updateStatusHandler env db orderId (some "ready")).effects = 1 ∧
    (updateStatusHandler env db orderId (some "ready")).resp.robotNotified
        = some env.connected ∧
    (updateStatusHandler env db orderId (some "ready")).resp.success = true ∧
    orderStatus (updateStatusHandler env db orderId (some "ready")).db orderId
        = some "ready" := by
  obtain ⟨o, hg⟩ := Option.isSome_iff_exists.mp h
  obtain ⟨conn, ios⟩ := env
  have hios : ios = true := hio
  subst hios
  have hupd := getOrderById_updateOrderStatus db orderId "ready"
  rw [hg] at hupd
  cases conn <;>
    simp [updateStatusHandler, hg, allowedStatuses, orderStatus, hupd,
      robotDispatchCount, readySignalCount, isRobotDispatch, isMqttWarning,
      MQTTService.sendOrderToRobot, MQTTService.publish,
      MQTTService.publishOrderStatusUpdate, effectsOfPublish, jsNatOr,
      ROBOT_ORDERS_TOPIC, ORDERS_STATUS_UPDATE_TOPIC]

def wReadyRow : OrderRow :=
  { id := 7, tableId := "4", tableLocation := none, restaurantId := none,
    items := [], totalPrice := 0, status := "preparing", created_at := 0,
    updated_at := 0 }

def wReadyDb : Db := { rows := [wReadyRow], nextId := 8, now := 1 }

/-- Witness for C1 with a connected transport: exactly one agent-dispatch
publish for the call. -/
theorem ready_transition_dispatches_exactly_once_witness :
    robotDispatchCount
        (updateStatusHandler ⟨true, true⟩ wReadyDb 7 (some "ready")).effects = 1 ∧
    readySignalCount
        (updateStatusHandler ⟨true, true⟩ wReadyDb 7 (some "ready")).effects = 1 ∧
    orderStatus (updateStatusHandler ⟨true, true⟩ wReadyDb 7 (some "ready")).db 7
        = some "ready" := by
  have h := ready_transition_dispatches_exactly_once ⟨true, true⟩ wReadyDb 7
    (by decide) rfl
  exact ⟨h.1, h.2.1, h.2.2.2.2⟩

/-- C4: when the transport is disconnected, a staff transition to ready still
commits and the request returns success with robotNotified = false, a warning
event is broadcast to dashboards, and the stored status stays ready. -/
theorem ready_transition_disconnected_commits (env : Env) (db : Db) (orderId : Nat)
    (h : (getOrderById db orderId).isSome = true) (hio : env.ioSet = true)
    (hconn : env.connected = false) :
    (updateStatusHandler env db orderId (some "ready")).resp.statusCode = 200 ∧
    (updateStatusHandler env db orderId (some "ready")).resp.success = true ∧
    (updateStatusHandler env db orderId (some "ready")).resp.robotNotified
        = some false ∧
    Effect.ioEmit (.mqttWarning orderId)
        ∈ (updateStatusHandler env db orderId (some "ready")).effects ∧
    orderStatus (updateStatusHandler env db orderId (some "ready")).db orderId
        = some "ready" := by
  obtain ⟨o, hg⟩ := Option.isSome_iff_exists.mp h
  obtain ⟨conn, ios⟩ := env
  have hios : ios = true := hio
  have hc : conn = false := hconn
  subst hios
  subst hc
  have hupd := getOrderById_updateOrderStatus db orderId "ready"
  rw [hg] at hupd
  simp [updateStatusHandler, hg, allowedStatuses, orderStatus, hupd]

/-- Witness for C4 at a concrete disconnected call. -/
theorem ready_transition_disconnected_commits_witness :
    (updateStatusHandler ⟨false, true⟩ wReadyDb 7 (some "ready")).resp.success = true ∧
    (updateStatusHandler ⟨false, true⟩ wReadyDb 7 (some "ready")).resp.robotNotified
        = some false ∧
    Effect.ioEmit (.mqttWarning 7)
        ∈ (updateStatusHandler ⟨false, true⟩ wReadyDb 7 (some "ready")).effects ∧
    orderStatus (updateStatusHandler ⟨false, true⟩ wReadyDb 7 (some "ready")).db 7
        = some "ready" := by
  have h := ready_transition_disconnected_commits ⟨false, true⟩ wReadyDb 7
    (by decide) rfl rfl
  exact ⟨h.2.1, h.2.2.1, h.2.2.2.1, h.2.2.2.2⟩

def wDeliveredRow : OrderRow :=
  { id := 9, tableId := "2", tableLocation := none, restaurantId := none,
    items := [], totalPrice := 0, status := "delivered", created_at := 0,
    updated_at := 0 }

def wDeliveredDb : Db := { rows := [wDeliveredRow], nextId := 10, now := 2 }

/-- C2 counterexample: an order whose stored status is delivered accepts a
staff transition back to pending — the request succeeds and the stored status
changes, refuting the claim that delivered and cancelled orders reject all
further transition requests. -/
theorem terminal_transition_accepted_cex :
    orderStatus wDeliveredDb 9 = some "delivered" ∧
    (updateStatusHandler ⟨false, false⟩ wDeliveredDb 9 (some "pending")).resp.success
        = true ∧
    orderStatus
        (updateStatusHandler ⟨false, false⟩ wDeliveredDb 9 (some "pending")).db 9
        = some "pending" := by
  decide

/-- C2 (amended): delivered and cancelled are not terminal in the code.  For
an existing order whose status is delivered or cancelled, a staff status
update to any allowed target succeeds and commits that target, the
soft-cancel delete succeeds and commits cancelled, and an automated update to
delivered succeeds: no route examines the previous status to reject a
transition. -/
theorem terminal_states_not_enforced (env : Env) (db : Db) (orderId : Nat)
    (s0 target : String)
    (h : orderStatus db orderId = some s0)
    (_hterm : s0 = "delivered" ∨ s0 = "cancelled")
    (htgt : target ∈ allowedStatuses)
    (hoid : orderId ≠ 0) :
    ((updateStatusHandler env db orderId (some target)).resp.success = true ∧
     orderStatus (updateStatusHandler env db orderId (some target)).db orderId
        = some target) ∧
    ((deleteOrderHandler env db orderId).resp.success = true ∧
     orderStatus (deleteOrderHandler env db orderId).db orderId = some "cancelled") ∧
    ((autoUpdateHandler env db (some orderId) (some "delivered")).resp.success = true ∧
     orderStatus (autoUpdateHandler env db (some orderId) (some "delivered")).db orderId
        = some "delivered") := by
  obtain ⟨o, hg, -⟩ := Option.map_eq_some'.mp h
  have hupdC := getOrderById_updateOrderStatus db orderId "cancelled"
  rw [hg] at hupdC
  have hupdD := getOrderById_updateOrderStatus db orderId "delivered"
  rw [hg] at hupdD
  refine ⟨?_, ?_, ?_⟩
  · have hupdT := getOrderById_updateOrderStatus db orderId target
    rw [hg] at hupdT
    simp only [allowedStatuses, List.mem_cons, List.not_mem_nil, or_false] at htgt
    rcases htgt with rfl | rfl | rfl | rfl | rfl <;>
      simp [updateStatusHandler, hg, allowedStatuses, orderStatus, hupdT]
  · simp [deleteOrderHandler, hg, orderStatus, hupdC]
  · simp [autoUpdateHandler, hg, allowedAutoStatuses, orderStatus, hupdD, hoid]

/-- Witness for the amended C2 theorem on a concrete delivered order. -/
theorem terminal_states_not_enforced_witness :
    ((updateStatusHandler ⟨false, false⟩ wDeliveredDb 9 (some "preparing")).resp.success
        = true ∧
     orderStatus
        (updateStatusHandler ⟨false, false⟩ wDeliveredDb 9 (some "preparing")).db 9
        = some "preparing") ∧
    ((deleteOrderHandler ⟨false, false⟩ wDeliveredDb 9).resp.success = true ∧
     orderStatus (deleteOrderHandler ⟨false, false⟩ wDeliveredDb 9).db 9
        = some "cancelled") ∧
    ((autoUpdateHandler ⟨false, false⟩ wDeliveredDb (some 9)
        (some "delivered")).resp.success = true ∧
     orderStatus (autoUpdateHandler ⟨false, false⟩ wDeliveredDb (some 9)
        (some "delivered")).db 9 = some "delivered") :=
  terminal_states_not_enforced ⟨false, false⟩ wDeliveredDb 9 "delivered" "preparing"
    (by decide) (Or.inl rfl) (by decide) (by decide)

/-- C5: for an automated (robot-originated) status update on an existing
order, a delivered target succeeds and commits delivered; any other supplied
target is rejected with the forbidden 400 response and the database is left
completely unchanged (no effects are emitted either). -/
theorem auto_update_only_delivered (env : Env) (db : Db) (orderId : Nat) (st : String)
    (h : (getOrderById db orderId).isSome = true) (hoid : orderId ≠ 0)
    (hst : st ≠ "") :
    (st = "delivered" →
      (autoUpdateHandler env db (some orderId) (some st)).resp.success = true ∧
      orderStatus (autoUpdateHandler env db (some orderId) (some st)).db orderId
          = some "delivered") ∧
    (st ≠ "delivered" →
      (autoUpdateHandler env db (some orderId) (some st)).resp.statusCode = 400 ∧
      (autoUpdateHandler env db (some orderId) (some st)).resp.success = false ∧
      (autoUpdateHandler env db (some orderId) (some st)).db = db ∧
      (autoUpdateHandler env db (some orderId) (some st)).effects = []) := by
  obtain ⟨o, hg⟩ := Option.isSome_iff_exists.mp h
  constructor
  · rintro rfl
    have hupd := getOrderById_updateOrderStatus db orderId "delivered"
    rw [hg] at hupd
    simp [autoUpdateHandler, hg, allowedAutoStatuses, orderStatus, hupd, hoid]
  · intro hne
    simp [autoUpdateHandler, hg, allowedAutoStatuses, hoid, hst, hne, badRequest]

/-- Witness for C5: on a concrete preparing order, delivered commits while a
ready target is rejected with 400 and leaves the database unchanged. -/
theorem auto_update_only_delivered_witness :
    ((autoUpdateHandler ⟨true, true⟩ wReadyDb (some 7) (some "delivered")).resp.success
        = true ∧
     orderStatus (autoUpdateHandler ⟨true, true⟩ wReadyDb (some 7)
        (some "delivered")).db 7 = some "delivered") ∧
    ((autoUpdateHandler ⟨true, true⟩ wReadyDb (some 7) (some "ready")).resp.statusCode
        = 400 ∧
     (autoUpdateHandler ⟨true, true⟩ wReadyDb (some 7) (some "ready")).db
        = wReadyDb) := by
  have h1 := (auto_update_only_delivered ⟨true, true⟩ wReadyDb 7 "delivered"
    (by decide) (by decide) (by decide)).1 rfl
  have h2 := (auto_update_only_delivered ⟨true, true⟩ wReadyDb 7 "ready"
    (by decide) (by decide) (by decide)).2 (by decide)
  exact ⟨h1, h2.1, h2.2.2.1⟩

def wBadTotalBody : SubmitBody :=
  { tableId := some "5",
    items := some [{ name := some "Tea", quantity := some 1, price := some 2 }],
    totalPrice := some 0 }

/-- C6 counterexample: a submission with a present tableId, a non-empty items
array whose consolidated quantity is 1, but caller-supplied totalPrice 0, is
rejected with 400 — the caller-supplied total does cause submission to fail,
refuting the claim that its value never does. -/
theorem client_total_causes_failure_cex :
    (submitHandler ⟨false, false⟩ wDb0 wBadTotalBody).resp.statusCode = 400 ∧
    wBadTotalBody.tableId ≠ none ∧
    wBadTotalBody.items.getD [] ≠ [] ∧
    (∀ p ∈ processOrderItems ((wBadTotalBody.items.getD []).map routePreprocess),
      1 ≤ p.quantity) := by
  decide

/-- C6 (amended): submit fails with a validation error exactly when tableId is
absent or empty, the items value is not a non-empty array, or the
caller-supplied totalPrice is absent, zero or not greater than zero — so the
caller-supplied total can cause failure, and no post-consolidation quantity
condition is checked.  Every other submission returns 201. -/
theorem validateOrderData_characterization :
    (∀ tableId items totalPrice,
      ((validateOrderData tableId items totalPrice).valid = false ↔
        (tableId.getD "" = "" ∨ items.getD [] = [] ∨ totalPrice.getD 0 ≤ 0))) ∧
    (∀ env db body,
      ((submitHandler env db body).resp.statusCode = 400 ↔
        (validateOrderData body.tableId body.items body.totalPrice).valid = false) ∧
      ((submitHandler env db body).resp.statusCode = 400 ∨
       (submitHandler env db body).resp.statusCode = 201)) := by
  constructor
  · intro tid items tp
    unfold validateOrderData
    cases items with
    | none =>
      by_cases h1 : tid.getD "" = "" <;> simp [h1]
    | some l =>
      by_cases h1 : tid.getD "" = "" <;> by_cases h2 : l = [] <;>
        by_cases h3 : tp.getD 0 ≤ 0 <;> simp [h1, h2, h3]
  · intro env db body
    by_cases hv : (validateOrderData body.tableId body.items body.totalPrice).valid
        = false <;>
      simp [submitHandler, hv]

def wEchoBody : SubmitBody :=
  { tableId := some "5",
    items := some [{ name := some "Tea", quantity := some 1, price := some 2 }],
    totalPrice := some 100 }

/-- C10: for every valid submission, the 201 response echoes the
caller-supplied totalPrice in its orderData while the row persisted for that
order carries the server-side recomputed total over the consolidated items;
on the concrete Tea order claiming total 100 the echoed total and the stored
total differ. -/
theorem submit_echoes_client_total_but_stores_recomputed :
    (∀ env db body,
      (validateOrderData body.tableId body.items body.totalPrice).valid = true →
      ∃ ed, (submitHandler env db body).resp.orderData = some ed ∧
        ed.totalPrice = body.totalPrice.getD 0 ∧
        ∃ r, r ∈ (submitHandler env db body).db.rows ∧
          some r.id = (submitHandler env db body).resp.orderId ∧
          r.totalPrice = calculateTotalPrice ((body.items.getD []).map routePreprocess)) ∧
    (∃ ed r,
      (submitHandler ⟨false, false⟩ wDb0 wEchoBody).resp.orderData = some ed ∧
      r ∈ (submitHandler ⟨false, false⟩ wDb0 wEchoBody).db.rows ∧
      some r.id = (submitHandler ⟨false, false⟩ wDb0 wEchoBody).resp.orderId ∧
      ed.totalPrice ≠ r.totalPrice) := by
  constructor
  · intro env db body hv
    simp only [submitHandler]
    rw [if_neg (by simp [hv])]
    exact ⟨_, rfl, rfl, _,
      List.mem_append_right _ (List.mem_singleton_self _), rfl, rfl⟩
  · have hstored : calculateTotalPrice ((wEchoBody.items.getD []).map routePreprocess)
        = 2 := by
      norm_num [calculateTotalPrice, processOrderItems, insertItem, itemName,
        itemQty, itemPriceVal, jsStrOr, jsIntOr, routePreprocess, wEchoBody]
    simp only [submitHandler]
    rw [if_neg (by decide)]
    refine ⟨_, _, rfl,
      List.mem_append_right _ (List.mem_singleton_self _), rfl, ?_⟩
    show (100 : ℚ) ≠ calculateTotalPrice ((wEchoBody.items.getD []).map routePreprocess)
    rw [hstored]
    norm_num

/-- Witness for C10 at the concrete Tea submission claiming total 100. -/
theorem submit_echoes_client_total_but_stores_recomputed_witness :
    ∃ ed, (submitHandler ⟨false, false⟩ wDb0 wEchoBody).resp.orderData = some ed ∧
      ed.totalPrice = wEchoBody.totalPrice.getD 0 ∧
      ∃ r, r ∈ (submitHandler ⟨false, false⟩ wDb0 wEchoBody).db.rows ∧
        some r.id = (submitHandler ⟨false, false⟩ wDb0 wEchoBody).resp.orderId ∧
        r.totalPrice
          = calculateTotalPrice ((wEchoBody.items.getD []).map routePreprocess) :=
  submit_echoes_client_total_but_stores_recomputed.1 ⟨false, false⟩ wDb0 wEchoBody
    (by decide)
